import Mathlib

/-!
Shallow embedding of the `cross-keychain` secret-storage library
(TypeScript) and proofs about it.

Modelling conventions:
* JavaScript string-keyed objects (`Record<string, T>`) become association
  lists (`Obj`) with JS insertion-order semantics: property read returns the
  first (unique) matching key, assignment updates in place or appends, and
  `delete` removes the key.
* Byte buffers become `List Nat`.
* Exceptions become `Except KErr`; `async` is erased (the code awaits every
  promise it creates, so the control flow is sequential).
* External capabilities that live outside this repository — Node's AES-256-GCM
  (`createCipheriv`/`createDecipheriv`), `JSON.stringify`/`JSON.parse`
  composed with UTF-8 coding, and Unicode NFC normalization
  (`String.prototype.normalize`) — are fields of an `Ext` record threaded
  through the embedded functions, so theorems state exactly which properties
  of those externals each result needs.  A concrete instantiation `extIdeal`
  (identity cipher, checksum tag, executable serializer with a verified
  decoder) is provided to evaluate the theorems on concrete inputs.
* The file-system state of the encrypted store is `Option (List Nat)`:
  `none` when `secrets.json` does not exist, `some data` for its contents.
  `fs.readFile` of a missing file (ENOENT) is the `none` branch of a match.
-/

namespace CrossKeychain

/-! ## JS object model (string-keyed records as association lists) -/

/-- The own (direct) properties of a JavaScript object, in insertion
order.  A plain object additionally inherits from `Object.prototype`;
the inheritance-aware read/assign/`in` operations are `readProp`,
`assignProp` and `hasProp` below. -/
abbrev Obj (α : Type) := List (String × α)

/-- Own-property lookup (`Object.getOwnPropertyDescriptor`-style): the
first binding of `k` among the own properties, ignoring the prototype
chain.  Full JS property read is `readProp`. -/
def lookupObj {α : Type} : Obj α → String → Option α
  | [], _ => none
  | (k, v) :: rest, key => if k = key then some v else lookupObj rest key

/-- Own-data-property write: update in place, else append.  This is the JS
behaviour where no inherited accessor interferes — spread copies
(`{...a, ...b}` uses CreateDataProperty) and assignments whose key either
already exists as an own data property or is not `"__proto__"`.  Full JS
assignment is `assignProp`. -/
def setObj {α : Type} : Obj α → String → α → Obj α
  | [], key, val => [(key, val)]
  | (k, v) :: rest, key, val =>
      if k = key then (k, val) :: rest else (k, v) :: setObj rest key val

/-- `delete m[k]`. -/
def delObj {α : Type} : Obj α → String → Obj α
  | [], _ => []
  | (k, v) :: rest, key =>
      if k = key then delObj rest key else (k, v) :: delObj rest key

/-- `Object.keys(m)`, in insertion order. -/
def keysObj {α : Type} (m : Obj α) : List String := m.map Prod.fst

/-- The decrypted plaintext shape: service → (account → password). -/
abbrev Store := Obj (Obj String)

/-- The string-keyed properties of `Object.prototype` (the built-in
methods, all functions, plus the legacy `__proto__` accessor). -/
def objectProtoKeys : List String :=
  ["constructor", "hasOwnProperty", "isPrototypeOf", "propertyIsEnumerable",
   "toLocaleString", "toString", "valueOf", "__defineGetter__",
   "__defineSetter__", "__lookupGetter__", "__lookupSetter__", "__proto__"]

/-- The string-keyed properties visible on a built-in function object
(`length`/`name` own, the rest inherited from `Function.prototype`;
`caller` and `arguments` are throwing accessors). -/
def functionProtoKeys : List String :=
  ["length", "name", "constructor", "apply", "bind", "call", "toString",
   "caller", "arguments"]

/-- Outcome of a JS property read on a plain object. -/
inductive PropRead (α : Type) where
  | own (v : α)
  | inherited
  | absent
  deriving Repr, DecidableEq

/-- JS property read `m[k]` on a plain object: an own property wins;
otherwise a key of `Object.prototype` yields the inherited member (a
non-nullish host object or function); otherwise `undefined`. -/
def readProp {α : Type} (m : Obj α) (k : String) : PropRead α :=
  match lookupObj m k with
  | some v => .own v
  | none => if objectProtoKeys.contains k then .inherited else .absent

/-- JS assignment `m[k] = v` (string-valued) on a plain object: an
existing own data property (even `"__proto__"`, as produced by
`JSON.parse`) is updated; assigning `"__proto__"` with no own binding
invokes the inherited accessor, which ignores non-object values and
creates no own property; any other key becomes an own property. -/
def assignProp {α : Type} (m : Obj α) (k : String) (v : α) : Obj α :=
  if k = "__proto__" ∧ (lookupObj m k).isNone then m else setObj m k v

/-- The JS `in` operator on a plain object: own keys or keys found on
`Object.prototype`. -/
def hasProp {α : Type} (m : Obj α) (k : String) : Bool :=
  (lookupObj m k).isSome || objectProtoKeys.contains k

/-- What `getPassword`'s read chain can evaluate to at runtime: a stored
password string, some non-nullish host value leaked from the prototype
chain (a function, an object, a number, a built-in function name...), or
`null`. -/
inductive GotVal where
  | str (s : String)
  | junk
  | nullv
  deriving Repr, DecidableEq

/-- The JS `in` operator when `store[service]` resolved to an inherited
member of `Object.prototype`: membership in that host object's chain. -/
def hostHas (service account : String) : Bool :=
  if service = "__proto__" then objectProtoKeys.contains account
  else functionProtoKeys.contains account || objectProtoKeys.contains account

/-! ## Error taxonomy (src/errors.ts plus the non-`KeyringError` exceptions
thrown by Node's crypto layer and `JSON.parse`) -/

/-- Errors a modelled operation can throw.  The first five constructors are
the `KeyringError` class hierarchy from `src/errors.ts`; `authFailure` models
the plain `Error` thrown by `decipher.final()` on a GCM tag mismatch and
`jsonParse` the `SyntaxError` thrown by `JSON.parse`. -/
inductive KErr where
  | keyring (msg : String)
  | passwordSet (msg : String)
  | passwordDelete (msg : String)
  | init (msg : String)
  | noKeyring (msg : String)
  | authFailure
  | jsonParse
  | typeError (msg : String)
  deriving Repr, DecidableEq

instance {ε α : Type} [DecidableEq ε] [DecidableEq α] :
    DecidableEq (Except ε α) := fun x y =>
  match x, y with
  | .ok a, .ok b =>
    if h : a = b then .isTrue (by rw [h])
    else .isFalse (by intro hc; cases hc; exact h rfl)
  | .error a, .error b =>
    if h : a = b then .isTrue (by rw [h])
    else .isFalse (by intro hc; cases hc; exact h rfl)
  | .ok _, .error _ => .isFalse (by intro hc; cases hc)
  | .error _, .ok _ => .isFalse (by intro hc; cases hc)

/-- `e instanceof KeyringError` for the modelled error values. -/
def KErr.isKeyringError : KErr → Bool
  | .keyring _ => true
  | .passwordSet _ => true
  | .passwordDelete _ => true
  | .init _ => true
  | .noKeyring _ => true
  | .authFailure => false
  | .jsonParse => false
  | .typeError _ => false

/-- `e instanceof InitError`. -/
def KErr.isInitError : KErr → Bool
  | .init _ => true
  | _ => false

/-- Reading `base[account] ?? null` when `store[service]` resolved to an
inherited member of `Object.prototype`.  For `service = "__proto__"` the
base is `Object.prototype` itself: its `__proto__` getter yields `null`,
its methods are functions (non-nullish host values), anything else is
`undefined`.  Otherwise the base is a built-in method (a function):
`name` is the method's name — a real string equal to `service` — `caller`
and `arguments` are throwing accessors (a `TypeError`, not a
`KeyringError`), the other function/object-prototype keys yield host
values, anything else is `undefined`. -/
def hostGet (service account : String) : Except KErr GotVal :=
  if service = "__proto__" then
    if account = "__proto__" then .ok .nullv
    else if objectProtoKeys.contains account then .ok .junk
    else .ok .nullv
  else
    if account = "caller" || account = "arguments" then
      .error (.typeError "restricted function property")
    else if account = "name" then .ok (.str service)
    else if functionProtoKeys.contains account
        || objectProtoKeys.contains account then .ok .junk
    else .ok .nullv

/-! ## External capabilities -/

/-- The capabilities the embedded code borrows from Node / ICU:
AES-256-GCM encryption, decryption and tag computation (key → iv →
data → output), `JSON.stringify`/`JSON.parse` composed with UTF-8
(`ser`/`des`), and NFC normalization (`nfc`). -/
structure Ext where
  encFn : List Nat → List Nat → List Nat → List Nat
  decFn : List Nat → List Nat → List Nat → List Nat
  tagFn : List Nat → List Nat → List Nat → List Nat
  ser : Store → List Nat
  des : List Nat → Option Store
  nfc : String → String

/-! ## Validation layer (ConfigurableBackend, src/base-backend.ts) -/

/-- UTF-16 length of a string (JS `String#length`): astral code points count
as two code units. -/
def utf16Len (s : String) : Nat :=
  s.data.foldl (fun n c => n + (if 0x10000 ≤ c.toNat then 2 else 1)) 0

/-- One character of the identifier pattern `/^[a-zA-Z0-9._@-]+$/`. -/
def identCharOk (c : Char) : Bool :=
  (('a' ≤ c && c ≤ 'z') || ('A' ≤ c && c ≤ 'Z') || ('0' ≤ c && c ≤ '9')
    || c = '.' || c = '_' || c = '@' || c = '-')

/-- `ConfigurableBackend.validateIdentifier`: NFC-normalize, reject empty,
reject length > 255 code units, reject any character outside the pattern. -/
def validateIdentifier (nfc : String → String) (value name : String) :
    Except KErr Unit :=
  let normalized := nfc value
  if normalized = "" then
    .error (.keyring (name ++ " cannot be empty"))
  else if 255 < utf16Len normalized then
    .error (.keyring (name ++ " exceeds maximum length of 255 characters"))
  else if !(normalized.data.all identCharOk) then
    .error (.keyring (name ++ " contains invalid characters"))
  else
    .ok ()

/-- `ConfigurableBackend.validatePassword`: NFC-normalize, reject empty,
reject length > 4096 code units. -/
def validatePassword (nfc : String → String) (password : String) :
    Except KErr Unit :=
  let normalized := nfc password
  if normalized = "" then
    .error (.keyring "Password cannot be empty")
  else if 4096 < utf16Len normalized then
    .error (.keyring "Password exceeds maximum length of 4096 characters")
  else
    .ok ()

/-! ## Encrypted file store (FileSystemBackend, src/backends/file.ts) -/

/-- `FileSystemBackend.encryptStore`: serialize the store, encrypt with a
fresh 12-byte nonce, and emit `version(1) ++ nonce ++ authTag ++ ciphertext`
with version byte 1.  The nonce (`randomBytes(12)`) is a parameter. -/
def encryptStore (E : Ext) (key nonce : List Nat) (store : Store) :
    List Nat :=
  let plaintext := E.ser store
  let encrypted := E.encFn key nonce plaintext
  let authTag := E.tagFn key nonce encrypted
  1 :: (nonce ++ authTag ++ encrypted)

/-- `data.subarray(1, 13)`: the nonce field of an envelope. -/
def envIv (data : List Nat) : List Nat := (data.drop 1).take 12

/-- `data.subarray(13, 29)`: the auth-tag field of an envelope. -/
def envTag (data : List Nat) : List Nat := (data.drop 13).take 16

/-- `data.subarray(29)`: the ciphertext field of an envelope. -/
def envCt (data : List Nat) : List Nat := data.drop 29

/-- `FileSystemBackend.decryptStore`: accept only version byte 1, split the
envelope, verify the GCM tag (`decipher.final()` throws on mismatch), then
JSON-parse the plaintext.  Any other version byte is a `KeyringError`. -/
def decryptStore (E : Ext) (key : List Nat) (data : List Nat) :
    Except KErr Store :=
  if data.head? = some 1 then
    let iv := envIv data
    let authTag := envTag data
    let encrypted := envCt data
    if E.tagFn key iv encrypted = authTag then
      match E.des (E.decFn key iv encrypted) with
      | some store => .ok store
      | none => .error .jsonParse
    else
      .error .authFailure
  else
    .error (.keyring "Unsupported store format version")

/-- `FileSystemBackend.readStore`: a missing file (ENOENT) yields the empty
map; any contents are decrypted, and every decryption error propagates. -/
def readStore (E : Ext) (key : List Nat) (file : Option (List Nat)) :
    Except KErr Store :=
  match file with
  | none => .ok []
  | some data => decryptStore E key data

/-- `FileSystemBackend.getPassword`: validate, read the store, evaluate
`store[service]?.[account] ?? null` with full prototype-chain semantics:
an own password string comes back as `.str`; an account that only exists
on `Object.prototype` (e.g. `"toString"`, or `"__proto__"` which yields
the prototype object) leaks a non-nullish host value (`.junk`); a service
that only exists on `Object.prototype` makes the chained read run against
that host object (`hostGet`); everything else is `null`. -/
def fsGetPassword (E : Ext) (key : List Nat) (file : Option (List Nat))
    (service account : String) : Except KErr GotVal := do
  let _ ← validateIdentifier E.nfc service "service"
  let _ ← validateIdentifier E.nfc account "account"
  let store ← readStore E key file
  match readProp store service with
  | .own serviceEntry =>
    match readProp serviceEntry account with
    | .own password => pure (.str password)
    | .inherited => pure .junk
    | .absent => pure .nullv
  | .inherited => hostGet service account
  | .absent => pure .nullv

/-- `FileSystemBackend.setPassword`; returns the new contents of the
secrets file (the write itself is atomic-rename, not modelled).
`serviceEntry[account] = password` is JS assignment (`assignProp`), so an
account named `"__proto__"` stores nothing.  When `store[service] ?? {}`
resolves to a member inherited from `Object.prototype`, the string
assignment lands on that host object (for `service = "__proto__"` this is
the process-global Object.prototype pollution, a side effect outside the
persisted state) and `store[service] = serviceEntry` either triggers the
prototype setter (no own entry) or creates a function-valued own entry
that `JSON.stringify` drops — either way the persisted store keeps
exactly its previous own entries. -/
def fsSetPassword (E : Ext) (key nonce : List Nat) (file : Option (List Nat))
    (service account password : String) : Except KErr (List Nat) := do
  let _ ← validateIdentifier E.nfc service "service"
  let _ ← validateIdentifier E.nfc account "account"
  let _ ← validatePassword E.nfc password
  let store ← readStore E key file
  match readProp store service with
  | .own serviceEntry =>
    pure (encryptStore E key nonce
      (setObj store service (assignProp serviceEntry account password)))
  | .absent =>
    pure (encryptStore E key nonce
      (setObj store service (assignProp [] account password)))
  | .inherited =>
    pure (encryptStore E key nonce store)

/-- `FileSystemBackend.deletePassword`; returns the new contents of the
secrets file on success.  The source's guard is
`!serviceEntry || !(account in serviceEntry)`: `in` consults the
prototype chain (`hasProp`), so an account that is merely an
`Object.prototype` key passes the guard, `delete` is a no-op on it, and
the store is re-encrypted.  A service that resolves to an inherited host
object is truthy; its `Object.keys` is empty (built-in properties are
non-enumerable), so after the guard the code deletes the non-own
`store[service]` key — a no-op — and rewrites the store unchanged. -/
def fsDeletePassword (E : Ext) (key nonce : List Nat)
    (file : Option (List Nat)) (service account : String) :
    Except KErr (List Nat) := do
  let _ ← validateIdentifier E.nfc service "service"
  let _ ← validateIdentifier E.nfc account "account"
  let store ← readStore E key file
  match readProp store service with
  | .absent => .error (.passwordDelete "Password not found")
  | .inherited =>
    if hostHas service account then
      pure (encryptStore E key nonce store)
    else
      .error (.passwordDelete "Password not found")
  | .own serviceEntry =>
    if hasProp serviceEntry account then
      let serviceEntry := delObj serviceEntry account
      let store :=
        if serviceEntry.isEmpty then delObj store service
        else setObj store service serviceEntry
      pure (encryptStore E key nonce store)
    else
      .error (.passwordDelete "Password not found")

/-- `FileSystemBackend.lookupUsernames`:
`serviceEntry ? Object.keys(serviceEntry) : []`.  An inherited host
object is truthy but its own properties are non-enumerable, so its
`Object.keys` is empty. -/
def fsLookupUsernames (E : Ext) (key : List Nat) (file : Option (List Nat))
    (service : String) : Except KErr (List String) := do
  let store ← readStore E key file
  pure (match readProp store service with
        | .own serviceEntry => keysObj serviceEntry
        | .inherited => []
        | .absent => [])

/-! ## Credential lookup (ConfigurableBackend.getCredential) -/

/-- A username/password pair. -/
structure Credential where
  username : String
  password : String
  deriving Repr, DecidableEq

/-- JS truthiness of the optional `account` argument: `undefined`, `null`
and the empty string are all falsy. -/
def accountTruthy : Option String → Bool
  | none => false
  | some a => a ≠ ""

/-- `ConfigurableBackend.getCredential`, parameterized by the abstract
`getPassword` and the `lookupUsernames` hook of the concrete backend.
With a truthy account it fetches directly; otherwise it takes the first
discovered username (`if (!username) return null` treats a missing or empty
first entry as a miss) and fetches its password. -/
def getCredential (getPw : String → String → Except KErr (Option String))
    (lookupU : String → Except KErr (List String))
    (service : String) (account : Option String) :
    Except KErr (Option Credential) :=
  if accountTruthy account then do
    let a := account.getD ""
    let password ← getPw service a
    pure (password.map fun p => ⟨a, p⟩)
  else do
    let usernames ← lookupU service
    match usernames.head? with
    | none => pure none
    | some username =>
      if username = "" then pure none
      else do
        let password ← getPw service username
        pure (password.map fun p => ⟨username, p⟩)

/-! ## Null backend (src/backends/null.ts) — note: no validation calls -/

/-- `NullBackend.getPassword`: always `null`, no validation, no I/O. -/
def nullGetPassword (_service _account : String) :
    Except KErr (Option String) := .ok none

/-- `NullBackend.setPassword`: silently succeeds, no validation, no I/O. -/
def nullSetPassword (_service _account _password : String) :
    Except KErr Unit := .ok ()

/-- `NullBackend.deletePassword`: always throws `PasswordDeleteError`. -/
def nullDeletePassword (_service _account : String) : Except KErr Unit :=
  .error (.passwordDelete "Null backend does not store passwords")

/-! ## macOS CLI backend (src/backends/macos.ts); the `security` subprocess
is the oracle `run : List String → CommandResult` -/

/-- Result of `runtime.runCommand`. -/
structure CommandResult where
  code : Int
  stdout : String
  stderr : String

/-- `security` invocation argument lists end with the custom keychain path
when one is configured. -/
def appendKeychain (args : List String) (keychain : Option String) :
    List String :=
  match keychain with
  | some kc => args ++ [kc]
  | none => args

/-- `MacOSKeychainBackend.getPassword`: validate, then shell out to
`security find-generic-password`; exit code 44 means "not found". -/
def macosGetPassword (E : Ext) (run : List String → CommandResult)
    (keychain : Option String) (service account : String) :
    Except KErr (Option String) := do
  let _ ← validateIdentifier E.nfc service "service"
  let _ ← validateIdentifier E.nfc account "account"
  let args := appendKeychain
    ["find-generic-password", "-s", service, "-a", account, "-w"] keychain
  let result := run args
  if result.code = 44 then
    pure none
  else if result.code ≠ 0 then
    .error (.keyring "Keychain operation failed")
  else
    pure (some result.stdout.trim)

/-- `MacOSKeychainBackend.setPassword`. -/
def macosSetPassword (E : Ext) (run : List String → CommandResult)
    (keychain : Option String) (service account password : String) :
    Except KErr Unit := do
  let _ ← validateIdentifier E.nfc service "service"
  let _ ← validateIdentifier E.nfc account "account"
  let _ ← validatePassword E.nfc password
  let args := appendKeychain
    ["add-generic-password", "-s", service, "-a", account, "-U", "-w",
      password] keychain
  let result := run args
  if result.code ≠ 0 then
    .error (.passwordSet "Keychain operation failed")
  else
    pure ()

/-- `MacOSKeychainBackend.deletePassword`. -/
def macosDeletePassword (E : Ext) (run : List String → CommandResult)
    (keychain : Option String) (service account : String) :
    Except KErr Unit := do
  let _ ← validateIdentifier E.nfc service "service"
  let _ ← validateIdentifier E.nfc account "account"
  let args := appendKeychain
    ["delete-generic-password", "-s", service, "-a", account] keychain
  let result := run args
  if result.code = 44 then
    .error (.passwordDelete "Password not found")
  else if result.code ≠ 0 then
    .error (.passwordDelete "Keychain operation failed")
  else
    pure ()

/-! ## Linux Secret Service CLI backend (src/backends/linux.ts); the
`secret-tool` subprocess is an oracle (for `store`, it also receives the
stdin payload) -/

/-- Trim of `/\r?\n$/` used on subprocess stdout. -/
def stripTrailingNewline (s : String) : String :=
  if s.endsWith "\r\n" then s.dropRight 2
  else if s.endsWith "\n" then s.dropRight 1
  else s

/-- `args.splice(1, 0, "--collection=...")`: insert the collection flag at
index 1 when a collection is configured. -/
def linuxInsertCollection (args : List String)
    (collection : Option String) : List String :=
  match collection, args with
  | some c, a0 :: rest => a0 :: ("--collection=" ++ c) :: rest
  | some c, [] => ["--collection=" ++ c]
  | none, a => a

/-- `SecretServiceBackend.getPassword`: validate, then `secret-tool
lookup`; exit code 1 means "not found". -/
def linuxGetPassword (E : Ext) (run : List String → CommandResult)
    (appId : String) (collection : Option String)
    (service account : String) : Except KErr (Option String) := do
  let _ ← validateIdentifier E.nfc service "service"
  let _ ← validateIdentifier E.nfc account "account"
  let args := linuxInsertCollection
    ["lookup", "service", service, "username", account, "application",
      appId] collection
  let result := run args
  if result.code = 1 then pure none
  else if result.code ≠ 0 then
    .error (.keyring "Secret service operation failed")
  else pure (some (stripTrailingNewline result.stdout))

/-- `SecretServiceBackend.setPassword`: validate, then `secret-tool store`
with the password on stdin (the display label's quote wrapping and
escaping are elided). -/
def linuxSetPassword (E : Ext)
    (run : List String → String → CommandResult) (appId : String)
    (collection : Option String) (service account password : String) :
    Except KErr Unit := do
  let _ ← validateIdentifier E.nfc service "service"
  let _ ← validateIdentifier E.nfc account "account"
  let _ ← validatePassword E.nfc password
  let label := "Password for " ++ account ++ " on " ++ service
    ++ " (" ++ appId ++ ")"
  let args := ["store", "--label", label]
    ++ (match collection with
        | some c => ["--collection=" ++ c]
        | none => [])
    ++ ["service", service, "username", account, "application", appId]
  let result := run args (password ++ "\n")
  if result.code ≠ 0 then
    .error (.passwordSet "Secret service operation failed")
  else pure ()

/-- `SecretServiceBackend.deletePassword`: validate, then `secret-tool
clear`; exit code 1 means "not found". -/
def linuxDeletePassword (E : Ext) (run : List String → CommandResult)
    (appId : String) (collection : Option String)
    (service account : String) : Except KErr Unit := do
  let _ ← validateIdentifier E.nfc service "service"
  let _ ← validateIdentifier E.nfc account "account"
  let args := linuxInsertCollection
    ["clear", "service", service, "username", account, "application",
      appId] collection
  let result := run args
  if result.code = 1 then .error (.passwordDelete "Password not found")
  else if result.code ≠ 0 then
    .error (.passwordDelete "Secret service operation failed")
  else pure ()

/-! ## Windows Credential Manager CLI backend (src/backends/windows.ts);
the PowerShell/CredMan scripts are oracles over the computed target -/

/-- `WindowsCredentialBackend.buildTarget`: validates the service (this is
where the service identifier is checked, after the account) and forms
`service:account`. -/
def windowsBuildTarget (E : Ext) (service account : String) :
    Except KErr String := do
  let _ ← validateIdentifier E.nfc service "service"
  pure (service ++ ":" ++ account)

/-- `WindowsCredentialBackend.validatePersistence`. -/
def validatePersistence (persist : Int) : Except KErr Unit :=
  if persist < 1 ∨ 3 < persist then
    .error (.keyring
      "Persistence must be 1 (Session), 2 (LocalMachine), or 3 (Enterprise)")
  else .ok ()

/-- `WindowsCredentialBackend.getPassword`: validate the account, build
the target (which validates the service), then run the CredRead script;
exit code 2 means "not found". -/
def windowsGetPassword (E : Ext) (credRead : String → CommandResult)
    (service account : String) : Except KErr (Option String) := do
  let _ ← validateIdentifier E.nfc account "account"
  let target ← windowsBuildTarget E service account
  let result := credRead target
  if result.code = 2 then pure none
  else if result.code ≠ 0 then
    .error (.keyring "Credential Manager operation failed")
  else pure (some (stripTrailingNewline result.stdout))

/-- `WindowsCredentialBackend.setPassword`: validate account and password,
build the target, validate the persistence mode, then run the CredWrite
script. -/
def windowsSetPassword (E : Ext)
    (credWrite : String → String → String → Int → CommandResult)
    (persist : Int) (service account password : String) :
    Except KErr Unit := do
  let _ ← validateIdentifier E.nfc account "account"
  let _ ← validatePassword E.nfc password
  let target ← windowsBuildTarget E service account
  let _ ← validatePersistence persist
  let result := credWrite target account password persist
  if result.code ≠ 0 then
    .error (.passwordSet "Credential Manager operation failed")
  else pure ()

/-- `WindowsCredentialBackend.deletePassword`: validate the account, build
the target, then run the CredDelete script; exit code 2 means "not
found". -/
def windowsDeletePassword (E : Ext) (credDelete : String → CommandResult)
    (service account : String) : Except KErr Unit := do
  let _ ← validateIdentifier E.nfc account "account"
  let target ← windowsBuildTarget E service account
  let result := credDelete target
  if result.code = 2 then .error (.passwordDelete "Password not found")
  else if result.code ≠ 0 then
    .error (.passwordDelete "Credential Manager operation failed")
  else pure ()

/-! ## Native-binding backends (src/backends/native-macos.ts,
native-linux.ts, native-windows.ts).  The three classes are structurally
identical: validate, require the `@napi-rs/keyring` module, then drive an
`Entry`; they differ only in the error-message label. -/

/-- The loaded `@napi-rs/keyring` Entry operations: each either returns or
throws with a message string. -/
structure NativeModule where
  entryGet : String → String → Except String String
  entrySet : String → String → String → Except String Unit
  entryDel : String → String → Except String Unit

/-- `message.includes(sub)` for non-empty `sub`. -/
def strIncludes (s sub : String) : Bool := (s.splitOn sub).length != 1

/-- Native backend `getPassword` (label selects the concrete backend's
message text): validate, require the module, fetch; a thrown message
matching the not-found patterns maps to `null`, anything else becomes a
`KeyringError`. -/
def nativeGetPassword (E : Ext) (nmod : Option NativeModule)
    (label : String) (service account : String) :
    Except KErr (Option String) := do
  let _ ← validateIdentifier E.nfc service "service"
  let _ ← validateIdentifier E.nfc account "account"
  match nmod with
  | none => .error (.keyring "Native keyring module not available")
  | some m =>
    match m.entryGet service account with
    | .ok password => pure (some password)
    | .error msg =>
      if strIncludes msg "not found" || strIncludes msg "No such"
          || strIncludes msg "not exist" then
        pure none
      else .error (.keyring (label ++ msg))

/-- Native backend `setPassword`: validate (including the password),
require the module, store; a thrown message becomes a
`PasswordSetError`. -/
def nativeSetPassword (E : Ext) (nmod : Option NativeModule)
    (label : String) (service account password : String) :
    Except KErr Unit := do
  let _ ← validateIdentifier E.nfc service "service"
  let _ ← validateIdentifier E.nfc account "account"
  let _ ← validatePassword E.nfc password
  match nmod with
  | none => .error (.keyring "Native keyring module not available")
  | some m =>
    match m.entrySet service account password with
    | .ok _ => pure ()
    | .error msg => .error (.passwordSet (label ++ msg))

/-- Native backend `deletePassword`: validate, require the module, check
existence through the full `getPassword`, then delete; a thrown message
becomes a `PasswordDeleteError`. -/
def nativeDeletePassword (E : Ext) (nmod : Option NativeModule)
    (label : String) (service account : String) : Except KErr Unit := do
  let _ ← validateIdentifier E.nfc service "service"
  let _ ← validateIdentifier E.nfc account "account"
  match nmod with
  | none => .error (.keyring "Native keyring module not available")
  | some m =>
    let existing ← nativeGetPassword E nmod label service account
    match existing with
    | none => .error (.passwordDelete "Password not found")
    | some _ =>
      match m.entryDel service account with
      | .ok _ => pure ()
      | .error msg => .error (.passwordDelete (label ++ msg))

/-! ## Registry & selector (src/registry.ts).  A constructed backend is
modelled by its immutable `(id, priority)` tag; the backend list parameter
of the selection functions is the (cached) result of `getAllBackends`. -/

/-- A constructed backend instance, as the selector sees it. -/
structure Backend where
  id : String
  priority : Rat
  deriving Repr, DecidableEq

/-- The instance `detectBackend` constructs when nothing qualifies. -/
def nullBackendInst : Backend := ⟨"null", -1⟩

/-- `loadBackendById` (property overrides do not change `(id, priority)`,
so the `withProperties` branch is the identity in this model). -/
def loadBackendById (backends : List Backend) (backendId : String)
    (limit : Option (Backend → Bool)) : Option Backend :=
  match backends.find? fun candidate => candidate.id = backendId with
  | none => none
  | some backend =>
    match limit with
    | some l => if l backend then some backend else none
    | none => some backend

/-- `loadBackendFromEnv`: an unset or empty `TS_KEYRING_BACKEND` defers to
the next selection stage; a set one that cannot be loaded is an
`InitError`. -/
def loadBackendFromEnv (envBackend : Option String)
    (backends : List Backend) (limit : Option (Backend → Bool)) :
    Except KErr (Option Backend) :=
  match envBackend with
  | none => .ok none
  | some backendId =>
    if backendId = "" then .ok none
    else
      match loadBackendById backends backendId limit with
      | none => .error (.init ("Backend " ++ backendId ++
          " from TS_KEYRING_BACKEND is not available"))
      | some backend => .ok (some backend)

/-- The `filtered` list inside `detectBackend`. -/
def detectFiltered (limit : Option (Backend → Bool))
    (backends : List Backend) : List Backend :=
  match limit with
  | some l => backends.filter l
  | none => backends

/-- One step of the `reduce` inside `detectBackend`: keep the candidate
only when its priority is strictly higher than the current selection. -/
def pickStep (selected candidate : Backend) : Backend :=
  if selected.priority < candidate.priority then candidate else selected

/-- `detectBackend`: filter by the selection limit, fall back to a fresh
Null backend when nothing qualifies, otherwise `reduce` with
`pickStep` (seeded with the first filtered backend). -/
def detectBackend (limit : Option (Backend → Bool))
    (backends : List Backend) : Backend :=
  match detectFiltered limit backends with
  | [] => nullBackendInst
  | b :: rest => rest.foldl pickStep b

/-- `initBackend`: environment override, then config file, then
auto-detection; the config-file outcome (`loadBackendFromConfig`) is a
parameter since config reading is out of scope. -/
def initBackend (envBackend : Option String)
    (configResult : Except KErr (Option Backend))
    (backends : List Backend) (limit : Option (Backend → Bool)) :
    Except KErr Backend := do
  match ← loadBackendFromEnv envBackend backends limit with
  | some backend => pure backend
  | none =>
    match configResult with
    | .error e => .error e
    | .ok (some backend) => pure backend
    | .ok none => pure (detectBackend limit backends)

/-! ## Backend discovery (registry `instantiate` / `getAllBackends`).
A factory is modelled by the outcome of its optional platform probe and the
outcome of its constructor. -/

/-- A backend factory: `probe` is `factory.isSupported` when declared
(`some` of the value the awaited probe resolves or rejects with), and
`construct` is what `new factory()` returns or throws. -/
structure Factory where
  probe : Option (Except KErr Bool)
  construct : Except KErr Backend

/-- The `try { return new factory() } catch` part of `instantiate`: an
`InitError` means "unusable here" and is swallowed, anything else
propagates. -/
def runConstruct (f : Factory) : Except KErr (Option Backend) :=
  match f.construct with
  | .ok b => .ok (some b)
  | .error e => if e.isInitError then .ok none else .error e

/-- `instantiate`: await the probe when declared — a probe rejection is NOT
caught, it propagates — skip on a negative probe, then construct. -/
def instantiate (f : Factory) : Except KErr (Option Backend) :=
  match f.probe with
  | some probeResult => do
    let supported ← probeResult
    if supported then runConstruct f else pure none
  | none => runConstruct f

/-- `getAllBackends` (uncached pass): instantiate every factory
(`Promise.all` rejects if any instantiation rejects) and drop the `null`
placeholders. -/
def getAllBackends (factories : List Factory) :
    Except KErr (List Backend) := do
  let instances ← factories.mapM instantiate
  pure (instances.filterMap id)

/-! ## Property maps (ConfigurableBackend constructor/`withProperties`).
`process.env` is modelled as the ordered list of its entries; a value is
`none` for a key set to `undefined`. -/

/-- Length-prefixed encoding of a string as its character codes. -/
def encString (s : String) : List Nat :=
  s.data.length :: s.data.map Char.toNat

/-- Decoder matching `encString`; returns the string and the unread rest. -/
def decString : List Nat → Option (String × List Nat)
  | [] => none
  | n :: rest =>
    if n ≤ rest.length then
      some (String.mk ((rest.take n).map Char.ofNat), rest.drop n)
    else none

/-- Concatenated encodings of a list's elements. -/
def encSeq {α : Type} (encA : α → List Nat) : List α → List Nat
  | [] => []
  | x :: xs => encA x ++ encSeq encA xs

/-- Decode exactly `n` consecutive items. -/
def decTimes {α : Type} (decA : List Nat → Option (α × List Nat)) :
    Nat → List Nat → Option (List α × List Nat)
  | 0, l => some ([], l)
  | n + 1, l =>
    match decA l with
    | none => none
    | some (x, rest) =>
      match decTimes decA n rest with
      | none => none
      | some (xs, rest2) => some (x :: xs, rest2)

/-- Length-prefixed encoding of a list. -/
def encListN {α : Type} (encA : α → List Nat) (xs : List α) : List Nat :=
  xs.length :: encSeq encA xs

/-- Decoder matching `encListN`. -/
def decListN {α : Type} (decA : List Nat → Option (α × List Nat)) :
    List Nat → Option (List α × List Nat)
  | [] => none
  | n :: rest => decTimes decA n rest

/-- Encoding of one `(account, password)` binding. -/
def encEntry2 (kv : String × String) : List Nat :=
  encString kv.1 ++ encString kv.2

/-- Decoder matching `encEntry2`. -/
def decEntry2 (l : List Nat) : Option ((String × String) × List Nat) :=
  match decString l with
  | none => none
  | some (k, rest) =>
    match decString rest with
    | none => none
    | some (v, rest2) => some ((k, v), rest2)

/-- Encoding of one `(service, accounts)` binding. -/
def encEntry1 (kv : String × Obj String) : List Nat :=
  encString kv.1 ++ encListN encEntry2 kv.2

/-- Decoder matching `encEntry1`. -/
def decEntry1 (l : List Nat) : Option ((String × Obj String) × List Nat) :=
  match decString l with
  | none => none
  | some (k, rest) =>
    match decListN decEntry2 rest with
    | none => none
    | some (v, rest2) => some ((k, v), rest2)

/-- Executable serializer for a whole store. -/
def serStoreFn (store : Store) : List Nat := encListN encEntry1 store

/-- Executable deserializer; demands that the input is consumed exactly. -/
def desStoreFn (l : List Nat) : Option Store :=
  match decListN decEntry1 l with
  | some (store, []) => some store
  | _ => none

/-- The concrete external world: identity cipher, checksum tag (16 equal
bytes derived from key, nonce and ciphertext), verified serializer, and
identity normalization (NFC is the identity on the ASCII identifier
alphabet). -/
def extIdeal : Ext where
  encFn := fun _ _ pt => pt
  decFn := fun _ _ ct => ct
  tagFn := fun key nonce ct =>
    List.replicate 16 ((key.sum + nonce.sum + ct.sum) % 256)
  ser := serStoreFn
  des := desStoreFn
  nfc := id

theorem dropAppendAdd {α : Type} (l1 l2 : List α) (n : Nat) :
    (l1 ++ l2).drop (l1.length + n) = l2.drop n := by
  induction l1 with
  | nil => simp
  | cons a l1 ih =>
    simp only [List.cons_append, List.length_cons]
    have : l1.length + 1 + n = (l1.length + n) + 1 := by omega
    rw [this, List.drop_succ_cons, ih]

theorem envelope_envIv (nonce tag ct : List Nat)
    (h12 : nonce.length = 12) :
    envIv (1 :: (nonce ++ tag ++ ct)) = nonce := by
  show (nonce ++ tag ++ ct).take 12 = nonce
  rw [List.append_assoc, ← h12, List.take_left]

theorem envelope_envTag (nonce tag ct : List Nat)
    (h12 : nonce.length = 12) (h16 : tag.length = 16) :
    envTag (1 :: (nonce ++ tag ++ ct)) = tag := by
  show ((nonce ++ tag ++ ct).drop 12).take 16 = tag
  rw [List.append_assoc, ← h12, List.drop_left, ← h16, List.take_left]

theorem envelope_envCt (nonce tag ct : List Nat)
    (h12 : nonce.length = 12) (h16 : tag.length = 16) :
    envCt (1 :: (nonce ++ tag ++ ct)) = ct := by
  show (nonce ++ tag ++ ct).drop 28 = ct
  rw [List.append_assoc, show (28 : Nat) = 12 + 16 from rfl, ← h12,
    dropAppendAdd, ← h16, List.drop_left]

/-- A fixed all-zero 12-byte nonce for concrete evaluations. -/
def nonce0 : List Nat := List.replicate 12 0

/-- C2. Read path of the encrypted store: a missing file reads as the empty
map; a present file is handed to `decryptStore` with no error handling in
between; version-byte, auth-tag and JSON failures are hard errors; any tag
value other than the authentic one for the envelope's nonce and ciphertext
(in particular one with any bit flipped) fails authentication; and a
successful read certifies version byte 1, tag authenticity and a parsed
plaintext — so no failure can surface as an empty or absent result. -/
theorem readStore_failure_propagation (E : Ext) (key : List Nat) :
    readStore E key none = .ok ([] : Store)
    ∧ (∀ data : List Nat,
        readStore E key (some data) = decryptStore E key data)
    ∧ (∀ data : List Nat, data.head? ≠ some 1 →
        decryptStore E key data
          = .error (.keyring "Unsupported store format version"))
    ∧ (∀ data : List Nat, data.head? = some 1 →
        E.tagFn key (envIv data) (envCt data) ≠ envTag data →
        decryptStore E key data = .error .authFailure)
    ∧ (∀ data : List Nat, data.head? = some 1 →
        E.tagFn key (envIv data) (envCt data) = envTag data →
        E.des (E.decFn key (envIv data) (envCt data)) = none →
        decryptStore E key data = .error .jsonParse)
    ∧ (∀ nonce tag ct : List Nat, nonce.length = 12 → tag.length = 16 →
        E.tagFn key nonce ct ≠ tag →
        decryptStore E key (1 :: (nonce ++ tag ++ ct))
          = .error .authFailure)
    ∧ (∀ (data : List Nat) (store : Store),
        readStore E key (some data) = .ok store →
        data.head? = some 1
        ∧ E.tagFn key (envIv data) (envCt data) = envTag data
        ∧ E.des (E.decFn key (envIv data) (envCt data)) = some store) := by
  refine ⟨rfl, fun _ => rfl, ?_, ?_, ?_, ?_, ?_⟩
  · intro data h
    simp only [decryptStore, if_neg h]
  · intro data h1 htag
    simp only [decryptStore, if_pos h1, if_neg htag]
  · intro data h1 htag hdes
    simp only [decryptStore, if_pos h1, if_pos htag, hdes]
  · intro nonce tag ct h12 h16 htag
    have h1 : (1 :: (nonce ++ tag ++ ct)).head? = some 1 := rfl
    simp only [decryptStore, if_pos h1, envelope_envIv _ _ _ h12,
      envelope_envTag _ _ _ h12 h16, envelope_envCt _ _ _ h12 h16,
      if_neg htag]
  · intro data store hok
    rw [show readStore E key (some data) = decryptStore E key data from rfl]
      at hok
    rw [decryptStore] at hok
    by_cases h1 : data.head? = some 1
    · rw [if_pos h1] at hok
      by_cases htag : E.tagFn key (envIv data) (envCt data) = envTag data
      · rw [if_pos htag] at hok
        cases hdes : E.des (E.decFn key (envIv data) (envCt data)) with
        | none => rw [hdes] at hok; exact absurd hok (by simp)
        | some store' =>
          rw [hdes] at hok
          simp only [Except.ok.injEq] at hok
          exact ⟨h1, htag, by rw [hok]⟩
      · rw [if_neg htag] at hok
        exact absurd hok (by simp)
    · rw [if_neg h1] at hok
      exact absurd hok (by simp)

/-- C2 witness: the propagation theorem evaluated on concrete envelopes —
an absent file reads empty, a wrong version byte and a corrupted tag both
fail hard. -/
theorem readStore_failure_propagation_witness :
    readStore extIdeal [] none = .ok ([] : Store)
    ∧ decryptStore extIdeal [] [2, 3, 4]
        = .error (.keyring "Unsupported store format version")
    ∧ decryptStore extIdeal []
        (1 :: (List.replicate 12 0 ++ List.replicate 16 5 ++ [7]))
        = .error .authFailure :=
  ⟨(readStore_failure_propagation extIdeal []).1,
    (readStore_failure_propagation extIdeal []).2.2.1 [2, 3, 4] (by decide),
    (readStore_failure_propagation extIdeal []).2.2.2.2.2.1
      (List.replicate 12 0) (List.replicate 16 5) [7] (by decide)
      (by decide) (by decide)⟩

/-! ## Claim C3: envelope layout, fresh nonces, version gating -/

/-- C3. Every write emits `version(1 byte) ++ nonce(12) ++ authTag(16) ++
ciphertext` with byte 0 equal to 1; two writes of identical plaintext under
distinct fresh nonces produce different envelopes; and any version byte
other than 1 is a fatal decode error. -/
theorem encryptStore_envelope_layout (E : Ext) (key nonce : List Nat)
    (store : Store) (h12 : nonce.length = 12)
    (h16 : (E.tagFn key nonce (E.encFn key nonce (E.ser store))).length
      = 16) :
    (encryptStore E key nonce store).head? = some 1
    ∧ encryptStore E key nonce store
        = 1 :: (nonce ++ E.tagFn key nonce (E.encFn key nonce (E.ser store))
            ++ E.encFn key nonce (E.ser store))
    ∧ envIv (encryptStore E key nonce store) = nonce
    ∧ envTag (encryptStore E key nonce store)
        = E.tagFn key nonce (E.encFn key nonce (E.ser store))
    ∧ envCt (encryptStore E key nonce store)
        = E.encFn key nonce (E.ser store)
    ∧ (∀ nonce' : List Nat, nonce'.length = 12 → nonce' ≠ nonce →
        encryptStore E key nonce' store ≠ encryptStore E key nonce store)
    ∧ (∀ data : List Nat, data.head? ≠ some 1 →
        decryptStore E key data
          = .error (.keyring "Unsupported store format version")) := by
  have hlay : encryptStore E key nonce store
      = 1 :: (nonce ++ E.tagFn key nonce (E.encFn key nonce (E.ser store))
          ++ E.encFn key nonce (E.ser store)) := rfl
  refine ⟨by rw [hlay]; rfl, hlay, ?_, ?_, ?_, ?_, ?_⟩
  · rw [hlay]; exact envelope_envIv _ _ _ h12
  · rw [hlay]; exact envelope_envTag _ _ _ h12 h16
  · rw [hlay]; exact envelope_envCt _ _ _ h12 h16
  · intro nonce' h12' hne heq
    have hiv' : envIv (encryptStore E key nonce' store) = nonce' :=
      envelope_envIv _ _ _ h12'
    have hiv : envIv (encryptStore E key nonce store) = nonce :=
      envelope_envIv _ _ _ h12
    rw [heq, hiv] at hiv'
    exact hne hiv'.symm
  · intro data h
    simp only [decryptStore, if_neg h]

/-- C3 witness: concrete envelope layout and nonce-freshness facts. -/
theorem encryptStore_envelope_layout_witness :
    (encryptStore extIdeal [] nonce0 []).head? = some 1
    ∧ envIv (encryptStore extIdeal [] nonce0 []) = nonce0
    ∧ encryptStore extIdeal [] (List.replicate 12 1) []
        ≠ encryptStore extIdeal [] nonce0 [] := by
  have h := encryptStore_envelope_layout extIdeal [] nonce0 []
    (by decide) (by decide)
  exact ⟨h.1, h.2.2.1, h.2.2.2.2.2.1 (List.replicate 12 1) (by decide)
    (by decide)⟩

/-! ## Claim C5: delete semantics on the encrypted file store
(corrected: the `in` guard sees Object.prototype keys) -/

/-- C4 counterexample. The claim quantifies over every concrete backend,
but `NullBackend`'s operations never call `validateIdentifier`: with the
identifier `"bad;id"` — which validation rejects with a `KeyringError` —
`setPassword` silently succeeds, `getPassword` returns absent and
`deletePassword` throws its usual delete error, so no validation error is
raised before (non-existent) backend logic. -/
theorem nullBackend_skips_validation :
    nullSetPassword "bad;id" "account" "pw" = .ok ()
    ∧ nullGetPassword "bad;id" "account" = .ok none
    ∧ nullDeletePassword "bad;id" "account"
        = .error (.passwordDelete "Null backend does not store passwords")
    ∧ validateIdentifier id "bad;id" "service"
        = .error (.keyring "service contains invalid characters") :=
  ⟨rfl, rfl, rfl, by decide⟩

theorem validateIdentifier_error_isKeyring (nfc : String → String)
    (value name : String) (e : KErr)
    (h : validateIdentifier nfc value name = .error e) :
    e.isKeyringError = true := by
  rw [validateIdentifier] at h
  split at h
  · cases h; rfl
  · split at h
    · cases h; rfl
    · split at h
      · cases h; rfl
      · cases h

theorem validatePassword_error_isKeyring (nfc : String → String)
    (password : String) (e : KErr)
    (h : validatePassword nfc password = .error e) :
    e.isKeyringError = true := by
  rw [validatePassword] at h
  split at h
  · cases h; rfl
  · split at h
    · cases h; rfl
    · cases h

/-- C4 as amended: for every embedded non-null backend — the Encrypted
File Store, the macOS and Secret Service CLI backends, the Windows
Credential Manager backend, and the three native-binding backends
(covered by the `label`/module parameters of the `native*` family) — a
validation failure surfaces as that exact `KeyringError`-kind error,
uniformly in the file state and every subprocess/module oracle, i.e.
before any backend-specific logic or I/O can influence the result.  The
three groups cover a rejected service (with the other validations
passing), a rejected account, and a rejected password for the
`setPassword` operations. -/
theorem validation_runs_before_backend_logic (E : Ext)
    (key nonce : List Nat) (service account password : String)
    (e : KErr) :
    (validateIdentifier E.nfc service "service" = .error e →
      validateIdentifier E.nfc account "account" = .ok () →
      validatePassword E.nfc password = .ok () →
      (∀ file, fsGetPassword E key file service account = .error e)
      ∧ (∀ file, fsSetPassword E key nonce file service account password
          = .error e)
      ∧ (∀ file, fsDeletePassword E key nonce file service account
          = .error e)
      ∧ (∀ run kc, macosGetPassword E run kc service account = .error e)
      ∧ (∀ run kc, macosSetPassword E run kc service account password
          = .error e)
      ∧ (∀ run kc, macosDeletePassword E run kc service account
          = .error e)
      ∧ (∀ run appId coll,
          linuxGetPassword E run appId coll service account = .error e)
      ∧ (∀ run appId coll,
          linuxSetPassword E run appId coll service account password
            = .error e)
      ∧ (∀ run appId coll,
          linuxDeletePassword E run appId coll service account = .error e)
      ∧ (∀ credRead,
          windowsGetPassword E credRead service account = .error e)
      ∧ (∀ credWrite persist,
          windowsSetPassword E credWrite persist service account password
            = .error e)
      ∧ (∀ credDelete,
          windowsDeletePassword E credDelete service account = .error e)
      ∧ (∀ nmod label,
          nativeGetPassword E nmod label service account = .error e)
      ∧ (∀ nmod label,
          nativeSetPassword E nmod label service account password
            = .error e)
      ∧ (∀ nmod label,
          nativeDeletePassword E nmod label service account = .error e))
    ∧ (validateIdentifier E.nfc service "service" = .ok () →
      validateIdentifier E.nfc account "account" = .error e →
      (∀ file, fsGetPassword E key file service account = .error e)
      ∧ (∀ file, fsSetPassword E key nonce file service account password
          = .error e)
      ∧ (∀ file, fsDeletePassword E key nonce file service account
          = .error e)
      ∧ (∀ run kc, macosGetPassword E run kc service account = .error e)
      ∧ (∀ run kc, macosSetPassword E run kc service account password
          = .error e)
      ∧ (∀ run kc, macosDeletePassword E run kc service account
          = .error e)
      ∧ (∀ run appId coll,
          linuxGetPassword E run appId coll service account = .error e)
      ∧ (∀ run appId coll,
          linuxSetPassword E run appId coll service account password
            = .error e)
      ∧ (∀ run appId coll,
          linuxDeletePassword E run appId coll service account = .error e)
      ∧ (∀ credRead,
          windowsGetPassword E credRead service account = .error e)
      ∧ (∀ credWrite persist,
          windowsSetPassword E credWrite persist service account password
            = .error e)
      ∧ (∀ credDelete,
          windowsDeletePassword E credDelete service account = .error e)
      ∧ (∀ nmod label,
          nativeGetPassword E nmod label service account = .error e)
      ∧ (∀ nmod label,
          nativeSetPassword E nmod label service account password
            = .error e)
      ∧ (∀ nmod label,
          nativeDeletePassword E nmod label service account = .error e))
    ∧ (validateIdentifier E.nfc service "service" = .ok () →
      validateIdentifier E.nfc account "account" = .ok () →
      validatePassword E.nfc password = .error e →
      (∀ file, fsSetPassword E key nonce file service account password
          = .error e)
      ∧ (∀ run kc, macosSetPassword E run kc service account password
          = .error e)
      ∧ (∀ run appId coll,
          linuxSetPassword E run appId coll service account password
            = .error e)
      ∧ (∀ credWrite persist,
          windowsSetPassword E credWrite persist service account password
            = .error e)
      ∧ (∀ nmod label,
          nativeSetPassword E nmod label service account password
            = .error e))
    ∧ ((validateIdentifier E.nfc service "service" = .error e
        ∨ validateIdentifier E.nfc account "account" = .error e
        ∨ validatePassword E.nfc password = .error e) →
      e.isKeyringError = true) := by
  refine ⟨?_, ?_, ?_, ?_⟩
  · intro hs ha hp
    refine ⟨?_, ?_, ?_, ?_, ?_, ?_, ?_, ?_, ?_, ?_, ?_, ?_, ?_, ?_, ?_⟩
    · intro file
      rw [fsGetPassword, hs]; rfl
    · intro file
      rw [fsSetPassword, hs]; rfl
    · intro file
      rw [fsDeletePassword, hs]; rfl
    · intro run kc
      rw [macosGetPassword, hs]; rfl
    · intro run kc
      rw [macosSetPassword, hs]; rfl
    · intro run kc
      rw [macosDeletePassword, hs]; rfl
    · intro run appId coll
      rw [linuxGetPassword, hs]; rfl
    · intro run appId coll
      simp only [linuxSetPassword, Bind.bind, Except.bind, hs]
    · intro run appId coll
      rw [linuxDeletePassword, hs]; rfl
    · intro credRead
      simp only [windowsGetPassword, windowsBuildTarget, Bind.bind,
        Except.bind, ha, hs]
    · intro credWrite persist
      simp only [windowsSetPassword, windowsBuildTarget, Bind.bind,
        Except.bind, ha, hp, hs]
    · intro credDelete
      simp only [windowsDeletePassword, windowsBuildTarget, Bind.bind,
        Except.bind, ha, hs]
    · intro nmod label
      simp only [nativeGetPassword, Bind.bind, Except.bind, hs]
    · intro nmod label
      simp only [nativeSetPassword, Bind.bind, Except.bind, hs]
    · intro nmod label
      simp only [nativeDeletePassword, Bind.bind, Except.bind, hs]
  · intro hs ha
    refine ⟨?_, ?_, ?_, ?_, ?_, ?_, ?_, ?_, ?_, ?_, ?_, ?_, ?_, ?_, ?_⟩
    · intro file
      simp only [fsGetPassword, Bind.bind, Except.bind, hs, ha]
    · intro file
      simp only [fsSetPassword, Bind.bind, Except.bind, hs, ha]
    · intro file
      simp only [fsDeletePassword, Bind.bind, Except.bind, hs, ha]
    · intro run kc
      simp only [macosGetPassword, Bind.bind, Except.bind, hs, ha]
    · intro run kc
      simp only [macosSetPassword, Bind.bind, Except.bind, hs, ha]
    · intro run kc
      simp only [macosDeletePassword, Bind.bind, Except.bind, hs, ha]
    · intro run appId coll
      simp only [linuxGetPassword, Bind.bind, Except.bind, hs, ha]
    · intro run appId coll
      simp only [linuxSetPassword, Bind.bind, Except.bind, hs, ha]
    · intro run appId coll
      simp only [linuxDeletePassword, Bind.bind, Except.bind, hs, ha]
    · intro credRead
      rw [windowsGetPassword, ha]; rfl
    · intro credWrite persist
      rw [windowsSetPassword, ha]; rfl
    · intro credDelete
      rw [windowsDeletePassword, ha]; rfl
    · intro nmod label
      simp only [nativeGetPassword, Bind.bind, Except.bind, hs, ha]
    · intro nmod label
      simp only [nativeSetPassword, Bind.bind, Except.bind, hs, ha]
    · intro nmod label
      simp only [nativeDeletePassword, Bind.bind, Except.bind, hs, ha]
  · intro hs ha hp
    refine ⟨?_, ?_, ?_, ?_, ?_⟩
    · intro file
      simp only [fsSetPassword, Bind.bind, Except.bind, hs, ha, hp]
    · intro run kc
      simp only [macosSetPassword, Bind.bind, Except.bind, hs, ha, hp]
    · intro run appId coll
      simp only [linuxSetPassword, Bind.bind, Except.bind, hs, ha, hp]
    · intro credWrite persist
      simp only [windowsSetPassword, Bind.bind, Except.bind, ha, hp]
    · intro nmod label
      simp only [nativeSetPassword, Bind.bind, Except.bind, hs, ha, hp]
  · intro h
    rcases h with h | h | h
    · exact validateIdentifier_error_isKeyring E.nfc service "service" e h
    · exact validateIdentifier_error_isKeyring E.nfc account "account" e h
    · exact validatePassword_error_isKeyring E.nfc password e h

/-- C4 witness: the amended theorem evaluated at rejected identifiers and
an empty password, with concrete file states and oracles, across the file
store, the Windows backend and the native family. -/
theorem validation_runs_before_backend_logic_witness :
    fsGetPassword extIdeal [] none "bad;id" "alice"
      = .error (.keyring "service contains invalid characters")
    ∧ windowsGetPassword extIdeal (fun _ => ⟨0, "", ""⟩) "svc" "bad;id"
        = .error (.keyring "account contains invalid characters")
    ∧ windowsSetPassword extIdeal (fun _ _ _ _ => ⟨0, "", ""⟩) 3 "svc"
        "alice" ""
        = .error (.keyring "Password cannot be empty")
    ∧ nativeDeletePassword extIdeal none "Native keychain error: "
        "bad;id" "alice"
        = .error (.keyring "service contains invalid characters") := by
  obtain ⟨g1, s1, d1, g2, s2, d2, g3, s3, d3, g4, s4, d4, g5, s5, d5⟩ :=
    (validation_runs_before_backend_logic extIdeal [] nonce0 "bad;id"
      "alice" "pw" (.keyring "service contains invalid characters")).1
      (by decide) (by decide) (by decide)
  obtain ⟨g1b, s1b, d1b, g2b, s2b, d2b, g3b, s3b, d3b, g4b, s4b, d4b, g5b,
      s5b, d5b⟩ :=
    (validation_runs_before_backend_logic extIdeal [] nonce0 "svc"
      "bad;id" "pw" (.keyring "account contains invalid characters")).2.1
      (by decide) (by decide)
  obtain ⟨s1c, s2c, s3c, s4c, s5c⟩ :=
    (validation_runs_before_backend_logic extIdeal [] nonce0 "svc"
      "alice" "" (.keyring "Password cannot be empty")).2.2.1
      (by decide) (by decide) (by decide)
  exact ⟨g1 none, g4b (fun _ => ⟨0, "", ""⟩),
    s4c (fun _ _ _ _ => ⟨0, "", ""⟩) 3,
    d5 none "Native keychain error: "⟩

/-! ## Claim C10: empty-string account falls through to username
discovery -/

/-- C10. For every backend inheriting the default `getCredential`, passing
the empty string as the account behaves exactly like omitting it (the
JS truthiness test treats `""` like `undefined`): the call falls through to
username discovery, returns absent when the service has no usernames, and
returns the first discovered username's credential otherwise. -/
theorem getCredential_empty_account_falls_through
    (getPw : String → String → Except KErr (Option String))
    (lookupU : String → Except KErr (List String)) (service : String) :
    getCredential getPw lookupU service (some "")
      = getCredential getPw lookupU service none
    ∧ (lookupU service = .ok [] →
        getCredential getPw lookupU service (some "") = .ok none)
    ∧ (∀ u us, lookupU service = .ok (u :: us) → u ≠ "" →
        getCredential getPw lookupU service (some "")
          = (getPw service u).map fun pw => pw.map fun p => ⟨u, p⟩) := by
  refine ⟨rfl, ?_, ?_⟩
  · intro hu
    rw [getCredential]
    simp only [accountTruthy, Bind.bind, Except.bind, hu]
    rfl
  · intro u us hu hne
    rw [getCredential]
    simp only [accountTruthy, Bind.bind, Except.bind, hu, List.head?_cons,
      if_neg hne]
    cases hpw : getPw service u with
    | error e => rfl
    | ok pw => rfl

/-- A concrete `getPassword` used to evaluate C10. -/
def gpW : String → String → Except KErr (Option String) :=
  fun _ a => .ok (if a = "alice" then some "pw" else none)

/-- A concrete username-discovery hook used to evaluate C10. -/
def luW : String → Except KErr (List String) := fun _ => .ok ["alice"]

/-- C10 witness: with one discovered username, the empty-account call
returns that username's credential. -/
theorem getCredential_empty_account_falls_through_witness :
    getCredential gpW luW "svc" (some "") = .ok (some ⟨"alice", "pw"⟩) := by
  have h := (getCredential_empty_account_falls_through gpW luW "svc").2.2
    "alice" [] rfl (by decide)
  rw [h]
  rfl

/-! ## Claim C6: an unknown backend id in the environment is fatal -/

/-- C6. When `TS_KEYRING_BACKEND` names an id that `loadBackendById`
cannot produce — not found among the supported backends, or rejected by
the active selection-limit predicate — `loadBackendFromEnv` throws an
`InitError` and `initBackend` propagates it unchanged, whatever the
config-file stage would have produced and without reaching
auto-detection. -/
theorem env_unknown_backend_is_fatal (backends : List Backend)
    (limit : Option (Backend → Bool)) (backendId : String)
    (hne : backendId ≠ "")
    (hnone : loadBackendById backends backendId limit = none) :
    loadBackendFromEnv (some backendId) backends limit
      = .error (.init ("Backend " ++ backendId ++
          " from TS_KEYRING_BACKEND is not available"))
    ∧ ∀ configResult : Except KErr (Option Backend),
        initBackend (some backendId) configResult backends limit
          = .error (.init ("Backend " ++ backendId ++
              " from TS_KEYRING_BACKEND is not available")) := by
  have henv : loadBackendFromEnv (some backendId) backends limit
      = .error (.init ("Backend " ++ backendId ++
          " from TS_KEYRING_BACKEND is not available")) := by
    rw [loadBackendFromEnv]
    simp only [if_neg hne, hnone]
  refine ⟨henv, fun configResult => ?_⟩
  simp only [initBackend, Bind.bind, Except.bind, henv]

/-- C6 witness: requesting the unavailable id `"kwallet"` from the
environment fails with an `InitError` for every config-file outcome
exercised here. -/
theorem env_unknown_backend_is_fatal_witness :
    initBackend (some "kwallet") (.ok (some ⟨"file", 0.5⟩))
        [⟨"file", 0.5⟩, ⟨"null", -1⟩] none
      = .error (.init ("Backend " ++ "kwallet" ++
          " from TS_KEYRING_BACKEND is not available")) :=
  (env_unknown_backend_is_fatal [⟨"file", 0.5⟩, ⟨"null", -1⟩] none
    "kwallet" (by decide) (by decide)).2 (.ok (some ⟨"file", 0.5⟩))

/-! ## Claim C7: auto-detection picks the first highest-priority backend -/

theorem foldl_pickStep_spec (rest : List Backend) (b : Backend) :
    rest.foldl pickStep b ∈ b :: rest
    ∧ (∀ x ∈ b :: rest, x.priority ≤ (rest.foldl pickStep b).priority)
    ∧ ∃ pre post, b :: rest = pre ++ (rest.foldl pickStep b) :: post
        ∧ ∀ x ∈ pre, x.priority < (rest.foldl pickStep b).priority := by
  induction rest generalizing b with
  | nil =>
    simp only [List.foldl_nil]
    refine ⟨List.mem_cons_self _ _, ?_, [], [], rfl, by simp⟩
    intro x hx
    rcases List.mem_cons.mp hx with h | h
    · subst h; exact le_rfl
    · exact absurd h (List.not_mem_nil x)
  | cons c cs ih =>
    simp only [List.foldl_cons]
    by_cases h : b.priority < c.priority
    · rw [show pickStep b c = c from if_pos h]
      obtain ⟨hmem, hbound, pre, post, hdec, hpre⟩ := ih c
      have hcr : c.priority ≤ (cs.foldl pickStep c).priority :=
        hbound c (List.mem_cons_self c cs)
      refine ⟨List.mem_cons_of_mem b hmem, ?_, b :: pre, post, ?_, ?_⟩
      · intro x hx
        rcases List.mem_cons.mp hx with hxb | hxcs
        · rw [hxb]
          exact le_of_lt (lt_of_lt_of_le h hcr)
        · exact hbound x hxcs
      · rw [List.cons_append, ← hdec]
      · intro x hx
        rcases List.mem_cons.mp hx with hxb | hxpre
        · rw [hxb]
          exact lt_of_lt_of_le h hcr
        · exact hpre x hxpre
    · rw [show pickStep b c = b from if_neg h]
      obtain ⟨hmem, hbound, pre, post, hdec, hpre⟩ := ih b
      have hcb : c.priority ≤ b.priority := le_of_not_lt h
      have hbr : b.priority ≤ (cs.foldl pickStep b).priority :=
        hbound b (List.mem_cons_self b cs)
      refine ⟨?_, ?_, ?_⟩
      · rcases List.mem_cons.mp hmem with hrb | hrcs
        · rw [hrb]
          exact List.mem_cons_self b (c :: cs)
        · exact List.mem_cons_of_mem b (List.mem_cons_of_mem c hrcs)
      · intro x hx
        rcases List.mem_cons.mp hx with hxb | hx2
        · rw [hxb]
          exact hbr
        · rcases List.mem_cons.mp hx2 with hxc | hxcs
          · rw [hxc]
            exact le_trans hcb hbr
          · exact hbound x (List.mem_cons_of_mem b hxcs)
      · cases pre with
        | nil =>
          rw [List.nil_append] at hdec
          injection hdec with hr hpost
          refine ⟨[], c :: cs, ?_, by simp⟩
          rw [List.nil_append, ← hr]
        | cons p0 pre' =>
          rw [List.cons_append] at hdec
          injection hdec with h1 h2
          refine ⟨b :: c :: pre', post, ?_, ?_⟩
          · rw [List.cons_append, List.cons_append, ← h2]
          · intro x hx
            have hblt : b.priority < (cs.foldl pickStep b).priority := by
              have := hpre p0 (List.mem_cons_self p0 pre')
              rw [← h1] at this
              exact this
            rcases List.mem_cons.mp hx with hxb | hx2
            · rw [hxb]; exact hblt
            · rcases List.mem_cons.mp hx2 with hxc | hxpre
              · rw [hxc]
                exact lt_of_le_of_lt hcb hblt
              · exact hpre x (List.mem_cons_of_mem p0 hxpre)

/-- C7. Auto-detection: among the backends passing the selection-limit
predicate (`detectFiltered`), `detectBackend` returns a member whose
priority is maximal, and it is the first such member in evaluated order
(every earlier filtered backend has strictly smaller priority); when the
filter leaves nothing, it returns a Null backend instance of
priority -1. -/
theorem detectBackend_picks_first_highest
    (limit : Option (Backend → Bool)) (backends : List Backend) :
    (detectFiltered limit backends = [] →
      detectBackend limit backends = nullBackendInst
      ∧ nullBackendInst.priority = -1)
    ∧ (∀ b rest, detectFiltered limit backends = b :: rest →
        detectBackend limit backends ∈ detectFiltered limit backends
        ∧ (∀ x ∈ detectFiltered limit backends,
            x.priority ≤ (detectBackend limit backends).priority)
        ∧ ∃ pre post,
            detectFiltered limit backends
              = pre ++ (detectBackend limit backends) :: post
            ∧ ∀ x ∈ pre,
                x.priority < (detectBackend limit backends).priority) := by
  constructor
  · intro hnil
    constructor
    · rw [detectBackend, hnil]
    · rfl
  · intro b rest hcons
    have hdet : detectBackend limit backends = rest.foldl pickStep b := by
      rw [detectBackend, hcons]
    rw [hdet, hcons]
    exact foldl_pickStep_spec rest b

/-- The backend list used to evaluate C7 (a tie at the top priority). -/
def backendsW : List Backend := [⟨"a", 1⟩, ⟨"b", 5⟩, ⟨"c", 5⟩]

/-- C7 witness: on a concrete list the detected backend is a member of the
filtered list, and an all-rejecting limit yields the Null instance. -/
theorem detectBackend_picks_first_highest_witness :
    detectBackend none backendsW ∈ backendsW
    ∧ detectBackend (some (fun _ => false)) backendsW = nullBackendInst :=
  ⟨((detectBackend_picks_first_highest none backendsW).2 ⟨"a", 1⟩
      [⟨"b", 5⟩, ⟨"c", 5⟩] rfl).1,
    ((detectBackend_picks_first_highest (some (fun _ => false))
      backendsW).1 rfl).1⟩

/-! ## Claim C8: discovery filtering (corrected: a probe failure is not
caught) -/

/-- A factory whose platform probe rejects. -/
def probeFailF : Factory :=
  ⟨some (.error (.keyring "probe boom")), .ok ⟨"x", 1⟩⟩

/-- C8 counterexample.  `instantiate` does not catch a failing platform
probe: the probe's error propagates (so the factory is not "skipped"), and
it takes the whole `getAllBackends` pass down with it instead of merely
excluding that factory from the list. -/
theorem probe_failure_not_skipped :
    instantiate probeFailF = .error (.keyring "probe boom")
    ∧ instantiate probeFailF ≠ .ok none
    ∧ getAllBackends [probeFailF] = .error (.keyring "probe boom") :=
  ⟨rfl, by decide, by decide⟩

/-- C8 as amended: during discovery a factory is skipped when its probe
returns negative; a probe failure propagates to the caller (it is not
caught); a construction failure signalling "backend unusable here"
(`InitError`) is swallowed and the backend excluded from the list, while
any other construction failure propagates. -/
theorem instantiate_discovery_rules (f : Factory) :
    (f.probe = some (.ok false) → instantiate f = .ok none)
    ∧ (∀ e, f.probe = some (.error e) → instantiate f = .error e)
    ∧ (∀ b, (f.probe = none ∨ f.probe = some (.ok true)) →
        f.construct = .ok b → instantiate f = .ok (some b))
    ∧ (∀ msg, (f.probe = none ∨ f.probe = some (.ok true)) →
        f.construct = .error (.init msg) → instantiate f = .ok none)
    ∧ (∀ e, (f.probe = none ∨ f.probe = some (.ok true)) →
        f.construct = .error e → e.isInitError = false →
        instantiate f = .error e) := by
  refine ⟨?_, ?_, ?_, ?_, ?_⟩
  · intro hp
    rw [instantiate, hp]
    rfl
  · intro e hp
    rw [instantiate, hp]
    rfl
  · intro b hp hc
    rcases hp with hp | hp
    · rw [instantiate, hp, runConstruct, hc]
    · rw [instantiate, hp]
      show runConstruct f = .ok (some b)
      rw [runConstruct, hc]
  · intro msg hp hc
    rcases hp with hp | hp
    · rw [instantiate, hp, runConstruct, hc]
      rfl
    · rw [instantiate, hp]
      show runConstruct f = .ok none
      rw [runConstruct, hc]
      rfl
  · intro e hp hc hnotinit
    rcases hp with hp | hp
    · rw [instantiate, hp]
      show runConstruct f = .error e
      rw [runConstruct, hc]
      simp [hnotinit]
    · rw [instantiate, hp]
      show runConstruct f = .error e
      rw [runConstruct, hc]
      simp [hnotinit]

/-- A factory whose probe reports "unsupported platform". -/
def fUnsupported : Factory := ⟨some (.ok false), .ok ⟨"u", 1⟩⟩

/-- A factory whose constructor throws `InitError`. -/
def fInitFail : Factory := ⟨none, .error (.init "nope")⟩

/-- A factory whose constructor throws a non-`InitError` error. -/
def fBoom : Factory := ⟨none, .error (.keyring "boom")⟩

/-- C8 witness: the discovery rules evaluated on three concrete
factories. -/
theorem instantiate_discovery_rules_witness :
    instantiate fUnsupported = .ok none
    ∧ instantiate fInitFail = .ok none
    ∧ instantiate fBoom = .error (.keyring "boom") :=
  ⟨(instantiate_discovery_rules fUnsupported).1 rfl,
    (instantiate_discovery_rules fInitFail).2.2.2.1 "nope" (Or.inl rfl) rfl,
    (instantiate_discovery_rules fBoom).2.2.2.2 (.keyring "boom")
      (Or.inl rfl) rfl rfl⟩

/-! ## Claim C9: withProperties merges without mutating, environment
wins -/

end CrossKeychain
